import Mathlib

/-!
Verification of the IBEX device generator's step orchestrator
(`src/ibex_device_generator/utils/step.py`) and CLI argument checkers
(`src/ibex_device_generator/utils/arg_parser.py`).

The six step functions are embedded as pure functions from a `DeviceInfo`
record to an event trace (each collaborator call — template population,
build-list edit, build-tool invocation, VCS submodule creation,
GUI-registry update — becomes one trace event) together with the final
`DeviceInfo` state.  Python's aliasing of `subs = device` inside
`create_ioc_from_template` is embedded by threading the single shared
state through the loop.  Fallible dictionary lookups (`device[key]`,
which raise `KeyError` in Python) are embedded in the `Option` monad,
and the checker functions of `arg_parser.py` (which raise
`ArgumentTypeError`) are embedded in `Except`.
-/

/-- Placeholder keys from `ibex_device_generator.utils.placeholders` that
the step functions access.  The module itself is a table of opaque key
constants; only the identities of the keys matter here. -/
inductive Placeholder where
  | DEVICE_SUPPORT_MODULE_NAME
  | GITHUB_REPO_NAME
  | SUPPORT_MASTER_PATH
  | DEVICE_COUNT
  | INDEX
  | IOC_NAME
  | IOC_PATH
  deriving DecidableEq, Repr

/-- Values stored in the `DeviceInfo` mapping: strings, or integers for
`device_count` (spec section 3). -/
inductive Value where
  | str (s : String)
  | nat (n : Nat)
  deriving DecidableEq, Repr

/-- Modelled from the spec: `DeviceInfo` (`utils/device_info.py`, not under
`src/`) is per spec section 3 "a mapping from placeholder key to
string/int value", passed by reference through every step.  We embed it
as an association list with Python-dict update semantics. -/
def DeviceInfo := List (Placeholder × Value)

instance : DecidableEq DeviceInfo :=
  inferInstanceAs (DecidableEq (List (Placeholder × Value)))

instance : Repr DeviceInfo :=
  inferInstanceAs (Repr (List (Placeholder × Value)))

/-- Dictionary lookup `device[key]`; `none` embeds a `KeyError`. -/
def DeviceInfo.get : DeviceInfo → Placeholder → Option Value
  | [], _ => none
  | (k, v) :: rest, key => if k = key then some v else DeviceInfo.get rest key

/-- Dictionary update `device[key] = value`: replace in place when the key
is present, append otherwise. -/
def DeviceInfo.set : DeviceInfo → Placeholder → Value → DeviceInfo
  | [], key, value => [(key, value)]
  | (k, v) :: rest, key, value =>
      if k = key then (key, value) :: rest
      else (k, v) :: DeviceInfo.set rest key value

/-- The four path roots imported by `step.py` from
`ibex_device_generator.paths` (configuration constants). -/
inductive Root where
  | EPICS
  | EPICS_SUPPORT
  | IOC_ROOT
  | CLIENT_SRC
  deriving DecidableEq, Repr

/-- One collaborator call made by a step function, in program order.
`populate` records a `populate_template_dir(get_template(tag), root, subs)`
call with the tag requested from `get_template` and the substitution
mapping passed; `createSubmodule` records
`RepoWrapper(EPICS).create_submodule(name, github_repo_url(repo), path)`;
`addToMakefile` records `add_to_makefile_list(root, var, entry)`;
`runCommand` records `run_command(argv, cwd)`; `addOpiInfo` records
`add_device_opi_to_opi_info(device)`. -/
inductive Event where
  | createSubmodule (name : Value) (repoName : Value) (path : Value)
  | populate (tag : String) (root : Root) (subs : DeviceInfo)
  | addToMakefile (root : Root) (var : String) (entry : Value)
  | runCommand (argv : List String) (cwd : Value)
  | addOpiInfo (device : DeviceInfo)
  deriving DecidableEq, Repr

/-- Modelled from the spec: `populate_template_dir`
(`utils/templates.py`, not under `src/`) has, per spec section 4.3,
"filesystem writes only; no network, no VCS calls" and "never invokes an
external build tool".  A call is embedded as the single trace event
recording the request. -/
def populate_template_dir (tag : String) (root : Root) (subs : DeviceInfo) :
    List Event :=
  [Event.populate tag root subs]

/-- Result of one step: the trace of collaborator calls and the final
shared `DeviceInfo`; `none` embeds an uncaught `KeyError`. -/
abbrev StepResult := Option (List Event × DeviceInfo)

/-- Embeds `create_submodule` (step.py lines 22-37): VCS submodule
creation, template "3" into EPICS, then a SUPPDIRS build-list edit. -/
def create_submodule (device : DeviceInfo) : StepResult := do
  let name ← device.get .DEVICE_SUPPORT_MODULE_NAME
  let repo ← device.get .GITHUB_REPO_NAME
  let path ← device.get .SUPPORT_MASTER_PATH
  let entry ← device.get .DEVICE_SUPPORT_MODULE_NAME
  some (Event.createSubmodule name repo path ::
        populate_template_dir "3" .EPICS device ++
        [Event.addToMakefile .EPICS_SUPPORT "SUPPDIRS" entry], device)

/-- Embeds `create_submodule_structure` (step.py lines 40-45): template
"4" into EPICS, then `run_command(["make"], support_master_path)`. -/
def create_submodule_structure (device : DeviceInfo) : StepResult := do
  let path ← device.get .SUPPORT_MASTER_PATH
  some (populate_template_dir "4" .EPICS device ++
        [Event.runCommand ["make"] path], device)

/-- Embeds `"{:02d}".format(i)`: decimal digits zero-padded on the left
to a minimum width of 2. -/
def zeroPad2 (i : Nat) : String :=
  let s := toString i
  if s.length < 2 then "0" ++ s else s

/-- The loop `for i in range(2, device_count + 1)` of
`create_ioc_from_template`: `subs = device` aliases the shared record, so
each iteration mutates the single shared state, which the populate call,
the next iteration, and everything after the loop see. -/
def iocLoop (device : DeviceInfo) : List Nat → List Event × DeviceInfo
  | [] => ([], device)
  | i :: rest =>
      let subs := device.set .INDEX (.str (zeroPad2 i))
      let next := iocLoop subs rest
      (populate_template_dir "5_2" .EPICS subs ++ next.1, next.2)

/-- Embeds `create_ioc_from_template` (step.py lines 48-64): template
"5_1" into EPICS for the primary app, the duplicate-app loop over
`range(2, device_count + 1)` (embedded as `List.range' 2 (n - 1)`), an
IOCDIRS build-list edit, then `run_command(["make"], ioc_path)`. -/
def create_ioc_from_template (device : DeviceInfo) : StepResult := do
  let firstPop := populate_template_dir "5_1" .EPICS device
  let count ← device.get .DEVICE_COUNT
  match count with
  | .str _ => none
  | .nat n =>
    let loopResult := iocLoop device (List.range' 2 (n - 1))
    let device1 := loopResult.2
    let iocName ← device1.get .IOC_NAME
    let iocPath ← device1.get .IOC_PATH
    some (firstPop ++ loopResult.1 ++
          [Event.addToMakefile .IOC_ROOT "IOCDIRS" iocName,
           Event.runCommand ["make"] iocPath], device1)

/-- Embeds `add_test_framework` (step.py lines 67-69): template "6" into
EPICS only. -/
def add_test_framework (device : DeviceInfo) : StepResult :=
  some (populate_template_dir "6" .EPICS device, device)

/-- Embeds `add_lewis_emulator` (step.py lines 72-74): template "7" into
EPICS only. -/
def add_lewis_emulator (device : DeviceInfo) : StepResult :=
  some (populate_template_dir "7" .EPICS device, device)

/-- Embeds `add_opi_to_gui` (step.py lines 77-81): template "8" into
CLIENT_SRC, then the GUI-registry update. -/
def add_opi_to_gui (device : DeviceInfo) : StepResult :=
  some (populate_template_dir "8" .CLIENT_SRC device ++
        [Event.addOpiInfo device], device)

/-- Classifier: template-population events. -/
def Event.isPopulate : Event → Bool
  | .populate _ _ _ => true
  | _ => false

/-- Classifier: build-list edits (`add_to_makefile_list` calls). -/
def Event.isMakefileEdit : Event → Bool
  | .addToMakefile _ _ _ => true
  | _ => false

/-- Classifier: build-tool invocations (`run_command` calls). -/
def Event.isRunCommand : Event → Bool
  | .runCommand _ _ => true
  | _ => false

/-- Classifier: external-tool invocations in the spec's sense (section
4.5): the build tool (`run_command`) or the VCS
(`RepoWrapper.create_submodule`). -/
def Event.isExternalTool : Event → Bool
  | .runCommand _ _ => true
  | .createSubmodule _ _ _ => true
  | _ => false

/-- The tags requested from `get_template` along a trace, in order. -/
def populateTags (evs : List Event) : List String :=
  evs.filterMap fun e =>
    match e with
    | .populate tag _ _ => some tag
    | _ => none

/-- The target roots of the template populations of a trace, in order. -/
def populateRoots (evs : List Event) : List Root :=
  evs.filterMap fun e =>
    match e with
    | .populate _ root _ => some root
    | _ => none

/-- Number of build-list edits in a trace. -/
def countMakefileEdits (evs : List Event) : Nat :=
  (evs.filter Event.isMakefileEdit).length

/-- Number of external-tool invocations in a trace. -/
def countExternalTool (evs : List Event) : Nat :=
  (evs.filter Event.isExternalTool).length

/-- Scanner for the ordering property: once a `run_command` invocation
has occurred, no template population may follow. -/
def noPopulateAfterRunGo (seenRun : Bool) : List Event → Bool
  | [] => true
  | e :: rest =>
      if seenRun && e.isPopulate then false
      else noPopulateAfterRunGo (seenRun || e.isRunCommand) rest

/-- Holds when every `run_command` invocation of the trace comes after
every template population. -/
def noPopulateAfterRun (evs : List Event) : Bool :=
  noPopulateAfterRunGo false evs

/-- The update performed once per duplicate-IOC loop iteration:
`subs[INDEX] = "{:02d}".format(i)` on the shared record. -/
def setIndex (d : DeviceInfo) (i : Nat) : DeviceInfo :=
  d.set .INDEX (.str (zeroPad2 i))

/-- The final shared `DeviceInfo` after `create_ioc_from_template` with
`device_count = n`: unchanged when the loop body never runs, otherwise
`index` holds the last iteration's 2-digit value. -/
def iocFinalState (d : DeviceInfo) (n : Nat) : DeviceInfo :=
  if n ≤ 1 then d else d.set .INDEX (.str (zeroPad2 n))

/-- The full trace of `create_ioc_from_template` with `device_count = n`:
one "5_1" population of the untouched record, one "5_2" population per
`i` in `range(2, n + 1)` with `index` set to the 2-digit form of `i`,
then the IOCDIRS edit and the `make` invocation. -/
def iocExpectedTrace (d : DeviceInfo) (n : Nat) (iocName iocPath : Value) :
    List Event :=
  Event.populate "5_1" .EPICS d ::
  ((List.range' 2 (n - 1)).map fun i =>
      Event.populate "5_2" .EPICS (setIndex d i)) ++
  [Event.addToMakefile .IOC_ROOT "IOCDIRS" iocName,
   Event.runCommand ["make"] iocPath]

/-- The full trace of `create_submodule`. -/
def submoduleTrace (d : DeviceInfo) (name repo path : Value) : List Event :=
  [Event.createSubmodule name repo path,
   Event.populate "3" .EPICS d,
   Event.addToMakefile .EPICS_SUPPORT "SUPPDIRS" name]

/-- The full trace of `create_submodule_structure`. -/
def structureTrace (d : DeviceInfo) (path : Value) : List Event :=
  [Event.populate "4" .EPICS d,
   Event.runCommand ["make"] path]

/-- A concrete, fully populated `DeviceInfo` used to witness the
hypotheses of the theorems below. -/
def sampleDevice : DeviceInfo :=
  [(.IOC_NAME, .str "TTIPLP"),
   (.DEVICE_SUPPORT_MODULE_NAME, .str "ttiplp"),
   (.GITHUB_REPO_NAME, .str "EPICS-ttiplp"),
   (.SUPPORT_MASTER_PATH, .str "support/ttiplp/master"),
   (.IOC_PATH, .str "ioc/master/TTIPLP"),
   (.DEVICE_COUNT, .nat 3)]

-- CLI argument checker embedding (arg_parser.py).

/-- Errors surfaced by the checker functions: `ArgumentTypeError` from
the explicit raises, or Python's `ValueError` from a failed `int(val)`
conversion (argparse treats both as a validation failure, so parsing
fails either way). -/
inductive CheckError where
  | argumentTypeError (msg : String)
  | valueError (badLiteral : String)
  deriving DecidableEq, Repr

/-- Modelled from the spec: the message text
`str(InvalidIOCNameError(ioc_name))` comes from `exc.py`, which is not
under `src/`; the exact wording is immaterial to every claim. -/
def invalidIOCNameMessage (ioc_name : String) : String :=
  "Invalid IOC name: " ++ ioc_name

/-- Modelled from the spec: the message text
`str(InvalidDeviceNameError(device_name))` comes from `exc.py`, which is
not under `src/`; the exact wording is immaterial to every claim. -/
def invalidDeviceNameMessage (device_name : String) : String :=
  "Invalid device name: " ++ device_name

/-- Modelled from the spec: the message text
`str(InvalidDeviceCountError(count))` comes from `exc.py`, which is not
under `src/`; the exact wording is immaterial to every claim. -/
def invalidDeviceCountMessage (count : Int) : String :=
  "Invalid device count: " ++ toString count

/-- Decimal digit-run parser underlying the `int(val)` model. -/
def parseDigits : List Char → Option Nat
  | [] => none
  | cs =>
      if cs.all (fun c => c.isDigit)
      then some (cs.foldl (fun n c => 10 * n + (c.toNat - 48)) 0)
      else none

/-- Embeds Python's builtin `int(val)` on a plain decimal string:
optional surrounding whitespace, optional sign, then digits; `none`
embeds the `ValueError` raise.  (Underscore digit grouping is not
modelled; no claim depends on it.) -/
def pythonInt (s : String) : Option Int :=
  let cs :=
    ((s.data.dropWhile Char.isWhitespace).reverse.dropWhile
      Char.isWhitespace).reverse
  match cs with
  | '-' :: rest => (parseDigits rest).map fun n => -(n : Int)
  | '+' :: rest => (parseDigits rest).map fun n => (n : Int)
  | _ => (parseDigits cs).map fun n => (n : Int)

/-- Embeds `ioc_name_checker` (arg_parser.py lines 101-105).  The
predicate `is_valid_ioc_name` lives in `device_info.py` (not under
`src/`), so it is taken as a parameter. -/
def ioc_name_checker (is_valid_ioc_name : String → Bool)
    (ioc_name : String) : Except CheckError String :=
  if ¬ is_valid_ioc_name ioc_name then
    .error (.argumentTypeError (invalidIOCNameMessage ioc_name))
  else .ok ioc_name

/-- Embeds `device_name_checker` (arg_parser.py lines 108-112), with the
externally defined `is_valid_device_name` as a parameter. -/
def device_name_checker (is_valid_device_name : String → Bool)
    (device_name : String) : Except CheckError String :=
  if ¬ is_valid_device_name device_name then
    .error (.argumentTypeError (invalidDeviceNameMessage device_name))
  else .ok device_name

/-- Embeds `device_count_checker` (arg_parser.py lines 115-120), with
the externally defined `is_valid_device_count` as a parameter. -/
def device_count_checker (is_valid_device_count : Int → Bool)
    (val : String) : Except CheckError Int :=
  match pythonInt val with
  | none => .error (.valueError val)
  | some count =>
      if ¬ is_valid_device_count count then
        .error (.argumentTypeError (invalidDeviceCountMessage count))
      else .ok count

/-- Embeds `ticket_number_checker` (arg_parser.py lines 123-130), with
the external GitHub lookup `does_github_issue_exist_and_is_open` as a
parameter; the message text is verbatim from the source. -/
def ticket_number_checker (issue_exists_and_open : Int → Bool)
    (val : String) : Except CheckError Int :=
  match pythonInt val with
  | none => .error (.valueError val)
  | some ticket_number =>
      if ¬ issue_exists_and_open ticket_number then
        .error (.argumentTypeError
          ("GitHub issue " ++ toString ticket_number ++
           " is closed or does not exist."))
      else .ok ticket_number

/-- The argparse action of one argument declaration. -/
inductive ArgAction where
  | store
  | storeTrue
  deriving DecidableEq, Repr

/-- One `parser.add_argument` declaration: its flag strings, action, the
`choices` restriction if any, and the explicit `default` if any. -/
structure ArgSpec where
  flags : List String
  action : ArgAction
  choices : Option (List String)
  defaultValue : Option Value
  deriving DecidableEq, Repr

/-- The `--log_level` declaration of the parser (arg_parser.py lines
75-81): choices exactly DEBUG/INFO/WARN/ERROR, default "INFO". -/
def logLevelArg : ArgSpec :=
  ⟨["--log_level"], .store, some ["DEBUG", "INFO", "WARN", "ERROR"],
   some (.str "INFO")⟩

/-- Embeds the `parser.add_argument` declarations of `parse_arguments`
(arg_parser.py lines 22-88), in source order.  The `--device_count`
default is `DeviceInfo.default_device_count` from `device_info.py` (not
under `src/`), modelled from the spec as the integer 1. -/
def parse_arguments_surface : List ArgSpec :=
  [⟨["ioc_name"], .store, none, none⟩,
   ⟨["ticket"], .store, none, none⟩,
   ⟨["--device_name"], .store, none, none⟩,
   ⟨["--device_count"], .store, none, some (.nat 1)⟩,
   ⟨["--use_git"], .storeTrue, none, none⟩,
   ⟨["--github_token"], .store, none, none⟩,
   logLevelArg,
   ⟨["-i", "--interactive"], .storeTrue, none, none⟩]

/-- The CLI surface exactly as spec section 6 words it: positional
`ioc_name` and `ticket`; options `--device_name`, `--device_count`
(default 1), `--use_git`, `--github_token`, `--log_level` (one of
DEBUG/INFO/WARN/ERROR, default INFO), `-i` alias `--interactive`. -/
def specCLISurface : List ArgSpec :=
  [⟨["ioc_name"], .store, none, none⟩,
   ⟨["ticket"], .store, none, none⟩,
   ⟨["--device_name"], .store, none, none⟩,
   ⟨["--device_count"], .store, none, some (.nat 1)⟩,
   ⟨["--use_git"], .storeTrue, none, none⟩,
   ⟨["--github_token"], .store, none, none⟩,
   ⟨["--log_level"], .store, some ["DEBUG", "INFO", "WARN", "ERROR"],
    some (.str "INFO")⟩,
   ⟨["-i", "--interactive"], .storeTrue, none, none⟩]

/-- Embeds argparse's documented `choices` validation: a supplied value
is accepted iff the declaration has no `choices` list or the value is in
it. -/
def choiceAccepts (a : ArgSpec) (v : String) : Bool :=
  match a.choices with
  | none => true
  | some cs => cs.contains v

/-- Embeds the post-parse fix-up of `parse_arguments` (arg_parser.py
lines 92-93): `if not args.device_name: args.device_name =
args.ioc_name`.  A missing `--device_name` is `None` and an explicit
empty string is also Python-falsy, so both fall back to `ioc_name`. -/
def resolve_device_name (device_name : Option String) (ioc_name : String) :
    String :=
  match device_name with
  | none => ioc_name
  | some s => if s = "" then ioc_name else s

-- Claim properties, stated over the embedded operations.

/-- Checker behavior (claim C6): each checker raises `ArgumentTypeError`
exactly when its validity predicate rejects, and on success returns its
input unchanged (the parsed integer for count and ticket). -/
def checkerSpecProp (validIoc validDev : String → Bool)
    (validCount issueOpen : Int → Bool) (s t val tval : String)
    (n k : Int) : Prop :=
  (ioc_name_checker validIoc s = .ok s ↔ validIoc s = true) ∧
  (ioc_name_checker validIoc s =
      .error (.argumentTypeError (invalidIOCNameMessage s)) ↔
    validIoc s = false) ∧
  (device_name_checker validDev t = .ok t ↔ validDev t = true) ∧
  (device_name_checker validDev t =
      .error (.argumentTypeError (invalidDeviceNameMessage t)) ↔
    validDev t = false) ∧
  (device_count_checker validCount val = .ok n ↔ validCount n = true) ∧
  (device_count_checker validCount val =
      .error (.argumentTypeError (invalidDeviceCountMessage n)) ↔
    validCount n = false) ∧
  (ticket_number_checker issueOpen tval = .ok k ↔ issueOpen k = true) ∧
  (ticket_number_checker issueOpen tval =
      .error (.argumentTypeError
        ("GitHub issue " ++ toString k ++ " is closed or does not exist."))
    ↔ issueOpen k = false)

/-- CLI surface (claim C7): the declared arguments match the spec's
interface, the `--log_level` declaration carries exactly the four
choices with default "INFO", each of the four is accepted, and a value
outside them is rejected. -/
def cliSurfaceProp (v : String) : Prop :=
  parse_arguments_surface = specCLISurface ∧
  logLevelArg ∈ parse_arguments_surface ∧
  (∀ w ∈ (["DEBUG", "INFO", "WARN", "ERROR"] : List String),
    choiceAccepts logLevelArg w = true) ∧
  choiceAccepts logLevelArg v = false

/-- Per-step effect budget (claim C2): every step performs at most one
build-list edit and at most one external-tool invocation, and exactly
`create_submodule` (SUPPDIRS of EPICS_SUPPORT, entry the device support
module name) and `create_ioc_from_template` (IOCDIRS of IOC_ROOT, entry
the IOC name) perform a build-list edit. -/
def stepBudgetProp (d : DeviceInfo) (n : Nat)
    (name repo path iocName iocPath : Value) : Prop :=
  create_submodule d = some (submoduleTrace d name repo path, d) ∧
  countMakefileEdits (submoduleTrace d name repo path) = 1 ∧
  countExternalTool (submoduleTrace d name repo path) = 1 ∧
  (submoduleTrace d name repo path).filter Event.isMakefileEdit =
    [Event.addToMakefile .EPICS_SUPPORT "SUPPDIRS" name] ∧
  create_submodule_structure d = some (structureTrace d path, d) ∧
  countMakefileEdits (structureTrace d path) = 0 ∧
  countExternalTool (structureTrace d path) = 1 ∧
  create_ioc_from_template d =
    some (iocExpectedTrace d n iocName iocPath, iocFinalState d n) ∧
  countMakefileEdits (iocExpectedTrace d n iocName iocPath) = 1 ∧
  countExternalTool (iocExpectedTrace d n iocName iocPath) = 1 ∧
  (iocExpectedTrace d n iocName iocPath).filter Event.isMakefileEdit =
    [Event.addToMakefile .IOC_ROOT "IOCDIRS" iocName] ∧
  add_test_framework d = some (populate_template_dir "6" .EPICS d, d) ∧
  countMakefileEdits (populate_template_dir "6" .EPICS d) = 0 ∧
  countExternalTool (populate_template_dir "6" .EPICS d) = 0 ∧
  add_lewis_emulator d = some (populate_template_dir "7" .EPICS d, d) ∧
  countMakefileEdits (populate_template_dir "7" .EPICS d) = 0 ∧
  countExternalTool (populate_template_dir "7" .EPICS d) = 0 ∧
  add_opi_to_gui d =
    some (populate_template_dir "8" .CLIENT_SRC d ++
          [Event.addOpiInfo d], d) ∧
  countMakefileEdits
    (populate_template_dir "8" .CLIENT_SRC d ++ [Event.addOpiInfo d]) = 0 ∧
  countExternalTool
    (populate_template_dir "8" .CLIENT_SRC d ++ [Event.addOpiInfo d]) = 0

/-- Build-tool ordering (claim C3): in both build-tool-invoking steps,
the `run_command(["make"], ...)` call comes only after every template
population of the step, and a template population by itself contributes
no build-tool invocation to the trace. -/
def buildToolOrderingProp (d : DeviceInfo) (n : Nat)
    (path iocName iocPath : Value) : Prop :=
  create_submodule_structure d = some (structureTrace d path, d) ∧
  noPopulateAfterRun (structureTrace d path) = true ∧
  create_ioc_from_template d =
    some (iocExpectedTrace d n iocName iocPath, iocFinalState d n) ∧
  noPopulateAfterRun (iocExpectedTrace d n iocName iocPath) = true ∧
  (∀ tag root subs,
    (populate_template_dir tag root subs).filter Event.isRunCommand = [])

/-- Frame property (claim C4): five of the six steps return the shared
`DeviceInfo` unchanged, and `create_ioc_from_template` changes at most
the `index` key. -/
def deviceInfoFrameProp (d : DeviceInfo) (n : Nat)
    (name repo path iocName iocPath : Value) : Prop :=
  create_submodule d = some (submoduleTrace d name repo path, d) ∧
  create_submodule_structure d = some (structureTrace d path, d) ∧
  add_test_framework d = some (populate_template_dir "6" .EPICS d, d) ∧
  add_lewis_emulator d = some (populate_template_dir "7" .EPICS d, d) ∧
  add_opi_to_gui d =
    some (populate_template_dir "8" .CLIENT_SRC d ++
          [Event.addOpiInfo d], d) ∧
  create_ioc_from_template d =
    some (iocExpectedTrace d n iocName iocPath, iocFinalState d n) ∧
  (∀ k, k ≠ Placeholder.INDEX → (iocFinalState d n).get k = d.get k)

/-- Template-tag assignment (claim C5): the tags requested from
`get_template` by each step, in order. -/
def templateTagsProp (d : DeviceInfo) (n : Nat)
    (name repo path iocName iocPath : Value) : Prop :=
  create_submodule d = some (submoduleTrace d name repo path, d) ∧
  populateTags (submoduleTrace d name repo path) = ["3"] ∧
  create_submodule_structure d = some (structureTrace d path, d) ∧
  populateTags (structureTrace d path) = ["4"] ∧
  create_ioc_from_template d =
    some (iocExpectedTrace d n iocName iocPath, iocFinalState d n) ∧
  populateTags (iocExpectedTrace d n iocName iocPath) =
    "5_1" :: List.replicate (n - 1) "5_2" ∧
  add_test_framework d = some (populate_template_dir "6" .EPICS d, d) ∧
  populateTags (populate_template_dir "6" .EPICS d) = ["6"] ∧
  add_lewis_emulator d = some (populate_template_dir "7" .EPICS d, d) ∧
  populateTags (populate_template_dir "7" .EPICS d) = ["7"] ∧
  add_opi_to_gui d =
    some (populate_template_dir "8" .CLIENT_SRC d ++
          [Event.addOpiInfo d], d) ∧
  populateTags (populate_template_dir "8" .CLIENT_SRC d ++
          [Event.addOpiInfo d]) = ["8"]

/-- Index persistence (claim C9): for `device_count` n ≥ 2 the step
returns with the shared record holding `index` equal to the padded form
of n, and the three subsequent steps pass that record through
unchanged. -/
def indexPersistsProp (d : DeviceInfo) (n : Nat)
    (iocName iocPath : Value) : Prop :=
  create_ioc_from_template d =
    some (iocExpectedTrace d n iocName iocPath,
          d.set .INDEX (.str (zeroPad2 n))) ∧
  (d.set .INDEX (.str (zeroPad2 n))).get .INDEX =
    some (.str (zeroPad2 n)) ∧
  add_test_framework (d.set .INDEX (.str (zeroPad2 n))) =
    some (populate_template_dir "6" .EPICS (d.set .INDEX (.str (zeroPad2 n))),
          d.set .INDEX (.str (zeroPad2 n))) ∧
  add_lewis_emulator (d.set .INDEX (.str (zeroPad2 n))) =
    some (populate_template_dir "7" .EPICS (d.set .INDEX (.str (zeroPad2 n))),
          d.set .INDEX (.str (zeroPad2 n))) ∧
  add_opi_to_gui (d.set .INDEX (.str (zeroPad2 n))) =
    some (populate_template_dir "8" .CLIENT_SRC
            (d.set .INDEX (.str (zeroPad2 n))) ++
          [Event.addOpiInfo (d.set .INDEX (.str (zeroPad2 n)))],
          d.set .INDEX (.str (zeroPad2 n)))

/-- Population roots (claim C10): only `add_opi_to_gui` populates into
CLIENT_SRC; every population of the other five steps targets EPICS. -/
def populateRootsProp (d : DeviceInfo) (n : Nat)
    (name repo path iocName iocPath : Value) : Prop :=
  create_submodule d = some (submoduleTrace d name repo path, d) ∧
  populateRoots (submoduleTrace d name repo path) = [Root.EPICS] ∧
  create_submodule_structure d = some (structureTrace d path, d) ∧
  populateRoots (structureTrace d path) = [Root.EPICS] ∧
  create_ioc_from_template d =
    some (iocExpectedTrace d n iocName iocPath, iocFinalState d n) ∧
  populateRoots (iocExpectedTrace d n iocName iocPath) =
    Root.EPICS :: List.replicate (n - 1) Root.EPICS ∧
  add_test_framework d = some (populate_template_dir "6" .EPICS d, d) ∧
  populateRoots (populate_template_dir "6" .EPICS d) = [Root.EPICS] ∧
  add_lewis_emulator d = some (populate_template_dir "7" .EPICS d, d) ∧
  populateRoots (populate_template_dir "7" .EPICS d) = [Root.EPICS] ∧
  add_opi_to_gui d =
    some (populate_template_dir "8" .CLIENT_SRC d ++
          [Event.addOpiInfo d], d) ∧
  populateRoots (populate_template_dir "8" .CLIENT_SRC d ++
          [Event.addOpiInfo d]) = [Root.CLIENT_SRC]

-- Basic lemmas about the dictionary model.

theorem DeviceInfo.get_set_same (d : DeviceInfo) (k : Placeholder) (v : Value) :
    (d.set k v).get k = some v := by
  induction d with
  | nil => simp [DeviceInfo.set, DeviceInfo.get]
  | cons hd tl ih =>
      obtain ⟨k', v'⟩ := hd
      by_cases h : k' = k <;> simp [DeviceInfo.set, DeviceInfo.get, h, ih]

theorem DeviceInfo.get_set_ne (d : DeviceInfo) (k k' : Placeholder) (v : Value)
    (h : k' ≠ k) : (d.set k v).get k' = d.get k' := by
  induction d with
  | nil => simp [DeviceInfo.set, DeviceInfo.get, Ne.symm h]
  | cons hd tl ih =>
      obtain ⟨k0, v0⟩ := hd
      by_cases h0 : k0 = k
      · subst h0
        simp [DeviceInfo.set, DeviceInfo.get, h, Ne.symm h]
      · by_cases h1 : k0 = k'
        · subst h1
          simp [DeviceInfo.set, DeviceInfo.get, h0]
        · simp [DeviceInfo.set, DeviceInfo.get, h0, h1, ih]

theorem DeviceInfo.set_set_same (d : DeviceInfo) (k : Placeholder) (v w : Value) :
    (d.set k v).set k w = d.set k w := by
  induction d with
  | nil => simp [DeviceInfo.set]
  | cons hd tl ih =>
      obtain ⟨k', v'⟩ := hd
      by_cases h : k' = k <;> simp [DeviceInfo.set, h, ih]

-- Characterization of the duplicate-IOC loop.

theorem iocLoop_spec (d : DeviceInfo) (l : List Nat) :
    iocLoop d l =
      (l.map fun i => Event.populate "5_2" .EPICS (setIndex d i),
       l.foldl setIndex d) := by
  induction l generalizing d with
  | nil => simp [iocLoop]
  | cons i rest ih =>
      simp only [iocLoop, populate_template_dir, ih, List.foldl_cons,
        List.map_cons, List.singleton_append, setIndex,
        DeviceInfo.set_set_same]

theorem foldl_setIndex_range' (s k : Nat) (hk : 1 ≤ k) (d : DeviceInfo) :
    (List.range' s k).foldl setIndex d = setIndex d (s + k - 1) := by
  induction k generalizing s d with
  | zero => omega
  | succ k ih =>
      rcases Nat.eq_zero_or_pos k with hk0 | hk1
      · subst hk0
        simp [List.range'_succ, List.range', setIndex]
      · have h2 : s + 1 + k - 1 = s + k := by omega
        have h3 : s + (k + 1) - 1 = s + k := by omega
        rw [List.range'_succ, List.foldl_cons, ih (s + 1) hk1]
        simp only [setIndex, DeviceInfo.set_set_same]
        rw [h2, h3]

theorem foldl_setIndex_final (d : DeviceInfo) (n : Nat) :
    (List.range' 2 (n - 1)).foldl setIndex d = iocFinalState d n := by
  rcases le_or_lt n 1 with h1 | h1
  · have : n - 1 = 0 := by omega
    simp [this, iocFinalState, h1]
  · rw [foldl_setIndex_range' 2 (n - 1) (by omega) d]
    have : 2 + (n - 1) - 1 = n := by omega
    rw [this]
    simp [iocFinalState, setIndex, Nat.not_le.mpr h1]

theorem iocFinalState_get_ne (d : DeviceInfo) (n : Nat) (k : Placeholder)
    (h : k ≠ .INDEX) : (iocFinalState d n).get k = d.get k := by
  unfold iocFinalState
  split
  · rfl
  · exact DeviceInfo.get_set_ne d .INDEX k _ h

theorem ioc_trace_eq (d : DeviceInfo) (n : Nat) (iocName iocPath : Value)
    (hc : d.get .DEVICE_COUNT = some (.nat n))
    (hn : d.get .IOC_NAME = some iocName)
    (hp : d.get .IOC_PATH = some iocPath) :
    create_ioc_from_template d =
      some (iocExpectedTrace d n iocName iocPath, iocFinalState d n) := by
  have hn1 : (iocFinalState d n).get .IOC_NAME = some iocName := by
    rw [iocFinalState_get_ne d n _ (by intro h; cases h)]
    exact hn
  have hp1 : (iocFinalState d n).get .IOC_PATH = some iocPath := by
    rw [iocFinalState_get_ne d n _ (by intro h; cases h)]
    exact hp
  unfold create_ioc_from_template
  rw [hc]
  simp only [Option.bind_eq_bind, Option.some_bind, iocLoop_spec,
    foldl_setIndex_final, hn1, hp1, Option.bind_some]
  simp [iocExpectedTrace, populate_template_dir]

theorem submodule_trace_eq (d : DeviceInfo) (name repo path : Value)
    (h1 : d.get .DEVICE_SUPPORT_MODULE_NAME = some name)
    (h2 : d.get .GITHUB_REPO_NAME = some repo)
    (h3 : d.get .SUPPORT_MASTER_PATH = some path) :
    create_submodule d = some (submoduleTrace d name repo path, d) := by
  unfold create_submodule
  rw [h1, h2, h3]
  simp [submoduleTrace, populate_template_dir]

theorem structure_trace_eq (d : DeviceInfo) (path : Value)
    (h : d.get .SUPPORT_MASTER_PATH = some path) :
    create_submodule_structure d = some (structureTrace d path, d) := by
  unfold create_submodule_structure
  rw [h]
  simp [structureTrace, populate_template_dir]

-- Trace projections of the expected traces.

theorem filter_isPopulate_ioc (d : DeviceInfo) (n : Nat) (a b : Value) :
    (iocExpectedTrace d n a b).filter Event.isPopulate =
      Event.populate "5_1" .EPICS d ::
        ((List.range' 2 (n - 1)).map fun i =>
          Event.populate "5_2" .EPICS (setIndex d i)) := by
  unfold iocExpectedTrace
  simp [List.filter_cons, List.filter_append, List.filter_map,
    Event.isPopulate, Function.comp_def]

theorem countMakefileEdits_ioc (d : DeviceInfo) (n : Nat) (a b : Value) :
    countMakefileEdits (iocExpectedTrace d n a b) = 1 := by
  unfold countMakefileEdits iocExpectedTrace
  simp [List.filter_cons, List.filter_append, List.filter_map,
    Event.isMakefileEdit, Function.comp_def]

theorem countExternalTool_ioc (d : DeviceInfo) (n : Nat) (a b : Value) :
    countExternalTool (iocExpectedTrace d n a b) = 1 := by
  unfold countExternalTool iocExpectedTrace
  simp [List.filter_cons, List.filter_append, List.filter_map,
    Event.isExternalTool, Function.comp_def]

theorem filterMap_const_some {α β : Type} (l : List α) (c : β) :
    l.filterMap (fun _ => some c) = List.replicate l.length c := by
  induction l with
  | nil => rfl
  | cons x xs ih => simp [List.filterMap_cons, ih, List.replicate_succ]

theorem populateTags_ioc (d : DeviceInfo) (n : Nat) (a b : Value) :
    populateTags (iocExpectedTrace d n a b) =
      "5_1" :: List.replicate (n - 1) "5_2" := by
  unfold populateTags iocExpectedTrace
  simp only [List.filterMap_cons, List.filterMap_append, List.filterMap_map,
    Function.comp_def]
  rw [filterMap_const_some]
  simp [List.length_range']

theorem populateRoots_ioc (d : DeviceInfo) (n : Nat) (a b : Value) :
    populateRoots (iocExpectedTrace d n a b) =
      Root.EPICS :: List.replicate (n - 1) Root.EPICS := by
  unfold populateRoots iocExpectedTrace
  simp only [List.filterMap_cons, List.filterMap_append, List.filterMap_map,
    Function.comp_def]
  rw [filterMap_const_some]
  simp [List.length_range']

-- Claim C1.

/-- Claim C1: for every `device_count` n with n ≥ 1, the IOC-population
step `create_ioc_from_template` populates template "5_1" exactly once,
with the record in which the `index` key has never been set, then for
each i from 2 to n inclusive sets `index` to the 2-digit zero-padded
string of i and populates template "5_2"; exactly n template populations
occur, the `index` values "02" to the padded form of n are applied to
populations 2 to n and no `index` substitution occurs in population 1;
for n = 1 the loop body never executes, leaving only the "5_1"
population, the build-list edit and the make invocation. -/
theorem ioc_population_sequence (d : DeviceInfo) (n : Nat)
    (iocName iocPath : Value)
    (hn1 : 1 ≤ n)
    (hc : d.get .DEVICE_COUNT = some (.nat n))
    (hidx : d.get .INDEX = none)
    (hname : d.get .IOC_NAME = some iocName)
    (hpath : d.get .IOC_PATH = some iocPath) :
    create_ioc_from_template d =
        some (iocExpectedTrace d n iocName iocPath, iocFinalState d n) ∧
    (iocExpectedTrace d n iocName iocPath).filter Event.isPopulate =
        Event.populate "5_1" .EPICS d ::
          ((List.range' 2 (n - 1)).map fun i =>
            Event.populate "5_2" .EPICS (setIndex d i)) ∧
    ((iocExpectedTrace d n iocName iocPath).filter Event.isPopulate).length
        = n ∧
    d.get .INDEX = none ∧
    (∀ i, (setIndex d i).get .INDEX = some (.str (zeroPad2 i))) ∧
    (∀ i, i ∈ List.range' 2 (n - 1) ↔ 2 ≤ i ∧ i ≤ n) ∧
    (n = 1 → iocExpectedTrace d n iocName iocPath =
        [Event.populate "5_1" .EPICS d,
         Event.addToMakefile .IOC_ROOT "IOCDIRS" iocName,
         Event.runCommand ["make"] iocPath]) := by
  refine ⟨ioc_trace_eq d n iocName iocPath hc hname hpath,
    filter_isPopulate_ioc d n iocName iocPath, ?_, hidx, ?_, ?_, ?_⟩
  · rw [filter_isPopulate_ioc]
    simp [List.length_range']
    omega
  · intro i
    exact DeviceInfo.get_set_same d .INDEX (.str (zeroPad2 i))
  · intro i
    rw [List.mem_range'_1]
    omega
  · intro h1
    subst h1
    simp [iocExpectedTrace]

/-- Witness for claim C1 at a concrete device record with
`device_count = 3`. -/
theorem ioc_population_sequence_witness :
    (1 ≤ 3 ∧
     sampleDevice.get .DEVICE_COUNT = some (.nat 3) ∧
     sampleDevice.get .INDEX = none ∧
     sampleDevice.get .IOC_NAME = some (.str "TTIPLP") ∧
     sampleDevice.get .IOC_PATH = some (.str "ioc/master/TTIPLP")) ∧
    create_ioc_from_template sampleDevice =
      some (iocExpectedTrace sampleDevice 3 (.str "TTIPLP")
              (.str "ioc/master/TTIPLP"),
            iocFinalState sampleDevice 3) :=
  ⟨⟨by decide, by decide, by decide, by decide, by decide⟩,
   (ioc_population_sequence sampleDevice 3 (.str "TTIPLP")
      (.str "ioc/master/TTIPLP") (by decide) (by decide) (by decide)
      (by decide) (by decide)).1⟩

-- Further trace helpers.

theorem filter_isMakefileEdit_ioc (d : DeviceInfo) (n : Nat) (a b : Value) :
    (iocExpectedTrace d n a b).filter Event.isMakefileEdit =
      [Event.addToMakefile .IOC_ROOT "IOCDIRS" a] := by
  unfold iocExpectedTrace
  simp [List.filter_cons, List.filter_append, List.filter_map,
    Event.isMakefileEdit, Function.comp_def]

theorem noPopGo_false_cons (e : Event) (he : e.isRunCommand = false)
    (l : List Event) :
    noPopulateAfterRunGo false (e :: l) = noPopulateAfterRunGo false l := by
  simp [noPopulateAfterRunGo, he]

theorem noPopGo_false_append (l rest : List Event)
    (h : ∀ e ∈ l, e.isRunCommand = false) :
    noPopulateAfterRunGo false (l ++ rest) =
      noPopulateAfterRunGo false rest := by
  induction l with
  | nil => rfl
  | cons e es ih =>
      rw [List.cons_append, noPopGo_false_cons e (h e (List.mem_cons_self e es))]
      exact ih fun x hx => h x (List.mem_cons_of_mem e hx)

theorem noPopulateAfterRun_ioc (d : DeviceInfo) (n : Nat) (a b : Value) :
    noPopulateAfterRun (iocExpectedTrace d n a b) = true := by
  unfold noPopulateAfterRun iocExpectedTrace
  have h : ∀ e ∈ (Event.populate "5_1" .EPICS d ::
      ((List.range' 2 (n - 1)).map fun i =>
        Event.populate "5_2" .EPICS (setIndex d i))),
      e.isRunCommand = false := by
    intro e he
    rcases List.mem_cons.1 he with rfl | he'
    · rfl
    · obtain ⟨i, _, rfl⟩ := List.mem_map.1 he'
      rfl
  rw [noPopGo_false_append _ _ h]
  rfl

-- Claim C2.

/-- Claim C2: every step function performs at most one build-list edit
and at most one external-tool invocation; exactly two steps perform a
build-list edit — `create_submodule` adds the device support module name
to SUPPDIRS of the EPICS_SUPPORT build file and `create_ioc_from_template`
adds the IOC name to IOCDIRS of the IOC_ROOT build file — and no other
step calls `add_to_makefile_list`. -/
theorem step_effect_budget (d : DeviceInfo) (n : Nat)
    (name repo path iocName iocPath : Value)
    (h1 : d.get .DEVICE_SUPPORT_MODULE_NAME = some name)
    (h2 : d.get .GITHUB_REPO_NAME = some repo)
    (h3 : d.get .SUPPORT_MASTER_PATH = some path)
    (hc : d.get .DEVICE_COUNT = some (.nat n))
    (hn : d.get .IOC_NAME = some iocName)
    (hp : d.get .IOC_PATH = some iocPath) :
    stepBudgetProp d n name repo path iocName iocPath := by
  refine ⟨submodule_trace_eq d name repo path h1 h2 h3, rfl, rfl, rfl,
    structure_trace_eq d path h3, rfl, rfl,
    ioc_trace_eq d n iocName iocPath hc hn hp,
    countMakefileEdits_ioc d n iocName iocPath,
    countExternalTool_ioc d n iocName iocPath,
    filter_isMakefileEdit_ioc d n iocName iocPath,
    rfl, rfl, rfl, rfl, rfl, rfl, rfl, rfl, rfl⟩

/-- Witness for claim C2 at the concrete device record. -/
theorem step_effect_budget_witness :
    (sampleDevice.get .DEVICE_SUPPORT_MODULE_NAME = some (.str "ttiplp") ∧
     sampleDevice.get .GITHUB_REPO_NAME = some (.str "EPICS-ttiplp") ∧
     sampleDevice.get .SUPPORT_MASTER_PATH =
       some (.str "support/ttiplp/master") ∧
     sampleDevice.get .DEVICE_COUNT = some (.nat 3) ∧
     sampleDevice.get .IOC_NAME = some (.str "TTIPLP") ∧
     sampleDevice.get .IOC_PATH = some (.str "ioc/master/TTIPLP")) ∧
    stepBudgetProp sampleDevice 3 (.str "ttiplp") (.str "EPICS-ttiplp")
      (.str "support/ttiplp/master") (.str "TTIPLP")
      (.str "ioc/master/TTIPLP") :=
  ⟨⟨by decide, by decide, by decide, by decide, by decide, by decide⟩,
   step_effect_budget sampleDevice 3 (.str "ttiplp") (.str "EPICS-ttiplp")
     (.str "support/ttiplp/master") (.str "TTIPLP")
     (.str "ioc/master/TTIPLP") (by decide) (by decide) (by decide)
     (by decide) (by decide) (by decide)⟩

-- Claim C3.

/-- Claim C3: in both step functions that invoke the external build tool
(`create_submodule_structure` and `create_ioc_from_template`) the
`run_command(["make"], ...)` invocation occurs only after every template
population of the step has returned, and template population itself
never contributes a build-tool invocation. -/
theorem build_tool_after_population (d : DeviceInfo) (n : Nat)
    (path iocName iocPath : Value)
    (h3 : d.get .SUPPORT_MASTER_PATH = some path)
    (hc : d.get .DEVICE_COUNT = some (.nat n))
    (hn : d.get .IOC_NAME = some iocName)
    (hp : d.get .IOC_PATH = some iocPath) :
    buildToolOrderingProp d n path iocName iocPath := by
  refine ⟨structure_trace_eq d path h3, rfl,
    ioc_trace_eq d n iocName iocPath hc hn hp,
    noPopulateAfterRun_ioc d n iocName iocPath,
    fun tag root subs => rfl⟩

/-- Witness for claim C3 at the concrete device record. -/
theorem build_tool_after_population_witness :
    (sampleDevice.get .SUPPORT_MASTER_PATH =
       some (.str "support/ttiplp/master") ∧
     sampleDevice.get .DEVICE_COUNT = some (.nat 3) ∧
     sampleDevice.get .IOC_NAME = some (.str "TTIPLP") ∧
     sampleDevice.get .IOC_PATH = some (.str "ioc/master/TTIPLP")) ∧
    buildToolOrderingProp sampleDevice 3 (.str "support/ttiplp/master")
      (.str "TTIPLP") (.str "ioc/master/TTIPLP") :=
  ⟨⟨by decide, by decide, by decide, by decide⟩,
   build_tool_after_population sampleDevice 3
     (.str "support/ttiplp/master") (.str "TTIPLP")
     (.str "ioc/master/TTIPLP") (by decide) (by decide) (by decide)
     (by decide)⟩

-- Claim C4.

/-- Claim C4: across all six step functions the only `DeviceInfo` key
ever written is `index`, and the only writer is
`create_ioc_from_template`; every other step returns the shared record
unchanged, and even the IOC step leaves every key other than `index`
unchanged. -/
theorem device_info_frame (d : DeviceInfo) (n : Nat)
    (name repo path iocName iocPath : Value)
    (h1 : d.get .DEVICE_SUPPORT_MODULE_NAME = some name)
    (h2 : d.get .GITHUB_REPO_NAME = some repo)
    (h3 : d.get .SUPPORT_MASTER_PATH = some path)
    (hc : d.get .DEVICE_COUNT = some (.nat n))
    (hn : d.get .IOC_NAME = some iocName)
    (hp : d.get .IOC_PATH = some iocPath) :
    deviceInfoFrameProp d n name repo path iocName iocPath := by
  refine ⟨submodule_trace_eq d name repo path h1 h2 h3,
    structure_trace_eq d path h3, rfl, rfl, rfl,
    ioc_trace_eq d n iocName iocPath hc hn hp, ?_⟩
  intro k hk
  exact iocFinalState_get_ne d n k hk

/-- Witness for claim C4 at the concrete device record. -/
theorem device_info_frame_witness :
    (sampleDevice.get .DEVICE_SUPPORT_MODULE_NAME = some (.str "ttiplp") ∧
     sampleDevice.get .GITHUB_REPO_NAME = some (.str "EPICS-ttiplp") ∧
     sampleDevice.get .SUPPORT_MASTER_PATH =
       some (.str "support/ttiplp/master") ∧
     sampleDevice.get .DEVICE_COUNT = some (.nat 3) ∧
     sampleDevice.get .IOC_NAME = some (.str "TTIPLP") ∧
     sampleDevice.get .IOC_PATH = some (.str "ioc/master/TTIPLP")) ∧
    deviceInfoFrameProp sampleDevice 3 (.str "ttiplp")
      (.str "EPICS-ttiplp") (.str "support/ttiplp/master")
      (.str "TTIPLP") (.str "ioc/master/TTIPLP") :=
  ⟨⟨by decide, by decide, by decide, by decide, by decide, by decide⟩,
   device_info_frame sampleDevice 3 (.str "ttiplp") (.str "EPICS-ttiplp")
     (.str "support/ttiplp/master") (.str "TTIPLP")
     (.str "ioc/master/TTIPLP") (by decide) (by decide) (by decide)
     (by decide) (by decide) (by decide)⟩

-- Claim C5.

/-- Claim C5: the template tags requested from `get_template` correspond
one-to-one to the pipeline steps — `create_submodule` "3",
`create_submodule_structure` "4", `create_ioc_from_template` "5_1" then
"5_2" for each duplicate app, `add_test_framework` "6",
`add_lewis_emulator` "7", `add_opi_to_gui` "8" — and no other tag is
ever requested. -/
theorem template_tags_per_step (d : DeviceInfo) (n : Nat)
    (name repo path iocName iocPath : Value)
    (h1 : d.get .DEVICE_SUPPORT_MODULE_NAME = some name)
    (h2 : d.get .GITHUB_REPO_NAME = some repo)
    (h3 : d.get .SUPPORT_MASTER_PATH = some path)
    (hc : d.get .DEVICE_COUNT = some (.nat n))
    (hn : d.get .IOC_NAME = some iocName)
    (hp : d.get .IOC_PATH = some iocPath) :
    templateTagsProp d n name repo path iocName iocPath := by
  refine ⟨submodule_trace_eq d name repo path h1 h2 h3, rfl,
    structure_trace_eq d path h3, rfl,
    ioc_trace_eq d n iocName iocPath hc hn hp,
    populateTags_ioc d n iocName iocPath,
    rfl, rfl, rfl, rfl, rfl, rfl⟩

/-- Witness for claim C5 at the concrete device record. -/
theorem template_tags_per_step_witness :
    (sampleDevice.get .DEVICE_SUPPORT_MODULE_NAME = some (.str "ttiplp") ∧
     sampleDevice.get .GITHUB_REPO_NAME = some (.str "EPICS-ttiplp") ∧
     sampleDevice.get .SUPPORT_MASTER_PATH =
       some (.str "support/ttiplp/master") ∧
     sampleDevice.get .DEVICE_COUNT = some (.nat 3) ∧
     sampleDevice.get .IOC_NAME = some (.str "TTIPLP") ∧
     sampleDevice.get .IOC_PATH = some (.str "ioc/master/TTIPLP")) ∧
    templateTagsProp sampleDevice 3 (.str "ttiplp") (.str "EPICS-ttiplp")
      (.str "support/ttiplp/master") (.str "TTIPLP")
      (.str "ioc/master/TTIPLP") :=
  ⟨⟨by decide, by decide, by decide, by decide, by decide, by decide⟩,
   template_tags_per_step sampleDevice 3 (.str "ttiplp")
     (.str "EPICS-ttiplp") (.str "support/ttiplp/master") (.str "TTIPLP")
     (.str "ioc/master/TTIPLP") (by decide) (by decide) (by decide)
     (by decide) (by decide) (by decide)⟩

-- Claim C9.

/-- Claim C9: `subs` aliases the shared record, so for `device_count`
n ≥ 2 the `index` key remains present in the shared `DeviceInfo` with
value the padded form of n after the step returns, this value is visible
to the three subsequent steps (which pass the record through unchanged),
and the mutation is never undone. -/
theorem index_persists_after_ioc (d : DeviceInfo) (n : Nat)
    (iocName iocPath : Value)
    (hn2 : 2 ≤ n)
    (hc : d.get .DEVICE_COUNT = some (.nat n))
    (hn : d.get .IOC_NAME = some iocName)
    (hp : d.get .IOC_PATH = some iocPath) :
    indexPersistsProp d n iocName iocPath := by
  have hfs : iocFinalState d n = d.set .INDEX (.str (zeroPad2 n)) := by
    unfold iocFinalState
    rw [if_neg (by omega)]
  refine ⟨?_, DeviceInfo.get_set_same d .INDEX (.str (zeroPad2 n)),
    rfl, rfl, rfl⟩
  rw [← hfs]
  exact ioc_trace_eq d n iocName iocPath hc hn hp

/-- Witness for claim C9 at the concrete device record with
`device_count = 3`. -/
theorem index_persists_after_ioc_witness :
    (2 ≤ 3 ∧
     sampleDevice.get .DEVICE_COUNT = some (.nat 3) ∧
     sampleDevice.get .IOC_NAME = some (.str "TTIPLP") ∧
     sampleDevice.get .IOC_PATH = some (.str "ioc/master/TTIPLP")) ∧
    indexPersistsProp sampleDevice 3 (.str "TTIPLP")
      (.str "ioc/master/TTIPLP") :=
  ⟨⟨by decide, by decide, by decide, by decide⟩,
   index_persists_after_ioc sampleDevice 3 (.str "TTIPLP")
     (.str "ioc/master/TTIPLP") (by decide) (by decide) (by decide)
     (by decide)⟩

-- Claim C10.

/-- Claim C10: `add_opi_to_gui` is the only step whose template
population targets the CLIENT_SRC root; every template population of the
other five steps targets the EPICS root. -/
theorem population_roots_per_step (d : DeviceInfo) (n : Nat)
    (name repo path iocName iocPath : Value)
    (h1 : d.get .DEVICE_SUPPORT_MODULE_NAME = some name)
    (h2 : d.get .GITHUB_REPO_NAME = some repo)
    (h3 : d.get .SUPPORT_MASTER_PATH = some path)
    (hc : d.get .DEVICE_COUNT = some (.nat n))
    (hn : d.get .IOC_NAME = some iocName)
    (hp : d.get .IOC_PATH = some iocPath) :
    populateRootsProp d n name repo path iocName iocPath := by
  refine ⟨submodule_trace_eq d name repo path h1 h2 h3, rfl,
    structure_trace_eq d path h3, rfl,
    ioc_trace_eq d n iocName iocPath hc hn hp,
    populateRoots_ioc d n iocName iocPath,
    rfl, rfl, rfl, rfl, rfl, rfl⟩

/-- Witness for claim C10 at the concrete device record. -/
theorem population_roots_per_step_witness :
    (sampleDevice.get .DEVICE_SUPPORT_MODULE_NAME = some (.str "ttiplp") ∧
     sampleDevice.get .GITHUB_REPO_NAME = some (.str "EPICS-ttiplp") ∧
     sampleDevice.get .SUPPORT_MASTER_PATH =
       some (.str "support/ttiplp/master") ∧
     sampleDevice.get .DEVICE_COUNT = some (.nat 3) ∧
     sampleDevice.get .IOC_NAME = some (.str "TTIPLP") ∧
     sampleDevice.get .IOC_PATH = some (.str "ioc/master/TTIPLP")) ∧
    populateRootsProp sampleDevice 3 (.str "ttiplp") (.str "EPICS-ttiplp")
      (.str "support/ttiplp/master") (.str "TTIPLP")
      (.str "ioc/master/TTIPLP") :=
  ⟨⟨by decide, by decide, by decide, by decide, by decide, by decide⟩,
   population_roots_per_step sampleDevice 3 (.str "ttiplp")
     (.str "EPICS-ttiplp") (.str "support/ttiplp/master") (.str "TTIPLP")
     (.str "ioc/master/TTIPLP") (by decide) (by decide) (by decide)
     (by decide) (by decide) (by decide)⟩

-- Claim C6.

/-- Claim C6: each CLI argument checker rejects exactly the invalid
inputs — it raises `ArgumentTypeError` iff its validity predicate (or
the GitHub issue-open lookup) returns false on the (int-converted, for
count and ticket) input — and on success returns the input unchanged, so
any validation failure makes parsing fail rather than proceed. -/
theorem checker_rejects_iff_invalid (validIoc validDev : String → Bool)
    (validCount issueOpen : Int → Bool) (s t val tval : String)
    (n k : Int)
    (hval : pythonInt val = some n)
    (htval : pythonInt tval = some k) :
    checkerSpecProp validIoc validDev validCount issueOpen s t val tval
      n k := by
  unfold checkerSpecProp
  refine ⟨?_, ?_, ?_, ?_, ?_, ?_, ?_, ?_⟩
  · by_cases hv : validIoc s = true <;> simp [ioc_name_checker, hv]
  · by_cases hv : validIoc s = true <;> simp [ioc_name_checker, hv]
  · by_cases hv : validDev t = true <;> simp [device_name_checker, hv]
  · by_cases hv : validDev t = true <;> simp [device_name_checker, hv]
  · by_cases hv : validCount n = true <;>
      simp [device_count_checker, hval, hv]
  · by_cases hv : validCount n = true <;>
      simp [device_count_checker, hval, hv]
  · by_cases hv : issueOpen k = true <;>
      simp [ticket_number_checker, htval, hv]
  · by_cases hv : issueOpen k = true <;>
      simp [ticket_number_checker, htval, hv]

/-- Witness for claim C6 with concrete predicates and inputs. -/
theorem checker_rejects_iff_invalid_witness :
    (pythonInt "3" = some 3 ∧ pythonInt "1234" = some 1234) ∧
    checkerSpecProp (fun x => !x.isEmpty) (fun x => !x.isEmpty)
      (fun c => decide (0 < c)) (fun c => decide (0 < c))
      "TTIPLP" "ttiplp" "3" "1234" 3 1234 :=
  ⟨⟨by decide, by decide⟩,
   checker_rejects_iff_invalid (fun x => !x.isEmpty) (fun x => !x.isEmpty)
     (fun c => decide (0 < c)) (fun c => decide (0 < c))
     "TTIPLP" "ttiplp" "3" "1234" 3 1234 (by decide) (by decide)⟩

-- Claim C7.

/-- Claim C7: the CLI surface matches the spec's interface — positional
`ioc_name` and `ticket`; options `--device_name`, `--device_count`
defaulting to 1, `--use_git`, `--github_token`, `--log_level` restricted
to exactly DEBUG, INFO, WARN, ERROR with default INFO, and `-i` alias
`--interactive` — and a `--log_level` value outside the four choices is
rejected. -/
theorem cli_surface_matches_spec (v : String)
    (hv : v ∉ (["DEBUG", "INFO", "WARN", "ERROR"] : List String)) :
    cliSurfaceProp v := by
  refine ⟨rfl, by decide, by decide, ?_⟩
  simp only [choiceAccepts, logLevelArg, List.contains, List.elem_eq_mem]
  simpa using hv

/-- Witness for claim C7 at the rejected value "TRACE". -/
theorem cli_surface_matches_spec_witness :
    "TRACE" ∉ (["DEBUG", "INFO", "WARN", "ERROR"] : List String) ∧
    cliSurfaceProp "TRACE" :=
  ⟨by decide, cli_surface_matches_spec "TRACE" (by decide)⟩

-- Claim C8.

/-- Claim C8: if the `--device_name` option is omitted (Python `None`)
or empty, `parse_arguments` sets `device_name` equal to `ioc_name`, so
the returned value is non-empty whenever the (validated, hence
non-empty) `ioc_name` is. -/
theorem device_name_defaults_to_ioc (dn : Option String) (ioc : String)
    (hioc : ioc ≠ "") :
    resolve_device_name none ioc = ioc ∧
    resolve_device_name (some "") ioc = ioc ∧
    resolve_device_name dn ioc ≠ "" := by
  refine ⟨rfl, rfl, ?_⟩
  cases dn with
  | none => exact hioc
  | some s =>
      by_cases hs : s = ""
      · subst hs
        simpa [resolve_device_name] using hioc
      · simp [resolve_device_name, hs]

/-- Witness for claim C8 at an explicitly empty device name. -/
theorem device_name_defaults_to_ioc_witness :
    ("TTIPLP" : String) ≠ "" ∧
    (resolve_device_name none "TTIPLP" = "TTIPLP" ∧
     resolve_device_name (some "") "TTIPLP" = "TTIPLP" ∧
     resolve_device_name (some "") "TTIPLP" ≠ "") :=
  ⟨by decide, device_name_defaults_to_ioc (some "") "TTIPLP" (by decide)⟩
